import Mathlib

set_option maxRecDepth 100000

/-!
Shallow embedding of the WhatsApp fake-news-checker pipeline
(`whatsapp_webhook.py`): the media fetcher (`download_media`), the
transcription client (`sarvam_transcribe`), the fact-check client
(`gemini_fact_check`), the orchestrator (`process_incoming`) and the
webhook endpoint (`twilio_webhook`).

External services (HTTP download, ASR, generative model, Twilio send,
file removal) are modelled by an `Env` record giving each call's
outcome; a run of the orchestrator produces a trace of `Event`s plus an
observable `RunResult`.  Python strings are modelled by `String`,
Python truthiness of strings by non-emptiness, `str.strip()` by
`pyStrip`, and `int(...)` by `pyParseInt`.
-/

namespace FakeNews

/-! ### Python string primitives -/

/-- Drop leading whitespace characters from a character list. -/
def dropWS : List Char → List Char
  | [] => []
  | c :: cs => if c.isWhitespace then dropWS cs else c :: cs

/-- Model of Python `str.strip()`: remove surrounding whitespace. -/
def pyStrip (s : String) : String :=
  String.mk ((dropWS ((dropWS s.data).reverse)).reverse)

/-- Python truthiness of a string: non-empty. -/
def pyTruthy (s : String) : Bool := s != ""

/-- Python truthiness of an optional string (`None` and `""` are falsy). -/
def optTruthy : Option String → Bool
  | none => false
  | some s => s != ""

/-- Python `x or y` on optional strings: `y` when `x` is falsy. -/
def pyOrStr (x y : Option String) : Option String :=
  if optTruthy x then x else y

/-- Accumulate decimal digits; `none` when a non-digit appears. -/
def decDigitsAux : Nat → List Char → Option Nat
  | acc, [] => some acc
  | acc, c :: cs =>
      if c.isDigit then decDigitsAux (acc * 10 + (c.toNat - 48)) cs else none

/-- Model of Python `int(s)` on a string: strip whitespace, optional
sign, at least one decimal digit; `none` models a raised `ValueError`.
(The digit-group underscores Python 3 also accepts are not modelled;
no claim involves them.) -/
def pyParseInt (s : String) : Option Int :=
  match (pyStrip s).data with
  | [] => none
  | '+' :: rest =>
      match rest with
      | [] => none
      | _ :: _ => (decDigitsAux 0 rest).map Int.ofNat
  | '-' :: rest =>
      match rest with
      | [] => none
      | _ :: _ => (decDigitsAux 0 rest).map (fun n => -(n : Int))
  | l =>
      match decDigitsAux 0 l with
      | some n => some (Int.ofNat n)
      | none => none

/-- Does `p` start the list `l`? -/
def startsWithList : List Char → List Char → Bool
  | [], _ => true
  | _ :: _, [] => false
  | p :: ps, c :: cs => (p == c) && startsWithList ps cs

/-- Does `p` occur as a contiguous run inside `l`? -/
def hasSubList (p : List Char) : List Char → Bool
  | [] => startsWithList p []
  | c :: cs => startsWithList p (c :: cs) || hasSubList p cs

/-- Model of Python `pat in hay` on strings. -/
def strHasSub (hay pat : String) : Bool := hasSubList pat.data hay.data

/-! ### Media fetcher (`download_media`) -/

/-- A `requests` HTTP response: status code, `Content-Type` header
(`""` when the header is absent, as `headers.get("Content-Type", "")`
yields) and body bytes. -/
structure HttpResponse where
  statusCode : Nat
  contentType : String
  content : List Nat
deriving Repr, DecidableEq

/-- Pipeline exceptions. -/
inductive PyErr
  | transportError
  | httpError (status : Nat)
deriving Repr, DecidableEq

/-- `requests.Response.raise_for_status` raises exactly for 4xx/5xx. -/
def raiseForStatusFails (status : Nat) : Bool :=
  (400 ≤ status) && (status < 600)

/-- Extension chosen from the declared content type, as in the source:
default `.bin`; `opus`/`ogg` → `.opus`; else `wav` → `.wav`; else
`mpeg`/`mp3` → `.mp3`. -/
def extFor (ct : String) : String :=
  if strHasSub ct "opus" || strHasSub ct "ogg" then ".opus"
  else if strHasSub ct "wav" then ".wav"
  else if strHasSub ct "mpeg" || strHasSub ct "mp3" then ".mp3"
  else ".bin"

/-- The file system is the set (list) of existing paths; file contents
are immaterial to every claim. -/
abbrev FileSys := List String

/-- `download_media`: the `requests.get` outcome is supplied by the
caller's environment (`Except.error` models a transport exception);
on success `raise_for_status` is applied, the extension inferred and a
file written at `freshName ++ ext` (`freshName` models
`os.path.join(tempfile.gettempdir(), uuid4().hex)`).  Returns the
raised-or-returned path together with the file system afterwards. -/
def download_media (httpOutcome : Except Unit HttpResponse)
    (freshName : String) (fs : FileSys) : Except PyErr String × FileSys :=
  match httpOutcome with
  | .error _ => (.error .transportError, fs)
  | .ok resp =>
      if raiseForStatusFails resp.statusCode then
        (.error (.httpError resp.statusCode), fs)
      else
        let path := freshName ++ extFor resp.contentType
        (.ok path, path :: fs)

/-! ### Transcription client (`sarvam_transcribe`) -/

/-- A Sarvam ASR response as seen by the extraction code:
`transcriptAttr` is `getattr(resp, "transcript", None)` (`none` models
an absent attribute or the value `None`), likewise `textAttr`;
`modelDump` is `none` when the object has no `model_dump` and
otherwise carries `(d.get("transcript"), d.get("text"))`. -/
structure SttResponse where
  transcriptAttr : Option String
  textAttr : Option String
  modelDump : Option (Option String × Option String)
deriving Repr, DecidableEq

/-- The extraction logic of `sarvam_transcribe`:
`transcript = getattr(resp,"transcript",None) or getattr(resp,"text",None)`;
if falsy, `d = resp.model_dump()` (or `{}`) and
`transcript = d.get("transcript") or d.get("text") or ""`;
returns `transcript.strip()`. -/
def sarvam_transcribe (resp : SttResponse) : String :=
  let t1 := pyOrStr resp.transcriptAttr resp.textAttr
  let t2 :=
    if optTruthy t1 then t1
    else
      match resp.modelDump with
      | some d => pyOrStr (pyOrStr d.1 d.2) (some "")
      | none => pyOrStr (pyOrStr none none) (some "")
  pyStrip (t2.getD "")

/-! ### Fact-check client (`gemini_fact_check`) -/

/-- Text of the prompt before the interpolated transcript (the source
file's literal bytes, including its mojibake Tamil, reproduced with
unicode escapes). -/
def promptPre : String :=
  "\nYou are an expert fact-checker for Indian and Tamil Nadu news.\nYou have access to the latest news up to this moment.\n\nFact to verify:\n\""

/-- Text of the prompt after the interpolated transcript. -/
def promptPost : String :=
  "\"\n\nTasks:\n1. Search for the latest and most credible news sources related to this fact.\n2. Determine if the statement is TRUE, FALSE, or PARTIALLY TRUE.\n3. Provide a short, clear explanation in Tamil, citing the sources or reasoning.\n4. If unsure, say \"à®¤à®•à®µà®²à¯ à®ªà¯‹à®¤à¯à®®à®¾à®©à®¤à®¾à®• à®‡à®²à¯à®²à¯ˆ\" (Insufficient information).\n\nFormat:\nVerdict: [TRUEâœ… / FALSEâŒ / PARTIALLY TRUE ðŸ†—/ UNCERTAINðŸŸ]\nExplanation: [2-3 lines in Tamil]\n"

/-- The f-string prompt with the transcript interpolated. -/
def geminiPrompt (transcript : String) : String :=
  promptPre ++ transcript ++ promptPost

/-- A generative-model response: `textAttr` is the `text` attribute
(`none` when absent), `strRendering` is `str(resp)`. -/
structure GenResponse where
  textAttr : Option String
  strRendering : String
deriving Repr, DecidableEq

/-- `gemini_fact_check`'s handling of the model response:
`getattr(resp, "text", str(resp))`. -/
def gemini_fact_check (resp : GenResponse) : String :=
  match resp.textAttr with
  | some t => t
  | none => resp.strRendering

/-! ### Fixed reply texts (the source file's literal bytes) -/

/-- The fixed insufficient-content reply of the empty-transcript guard. -/
def insufficientMsg : String :=
  "à®¤à®•à®µà®²à¯ à®•à®¿à®Ÿà¯ˆà®•à¯à®•à®µà®¿à®²à¯à®²à¯ˆ â€” à®¤à®¯à®µà¯à®šà¯†à®¯à¯à®¤à¯ à®¤à¯†à®³à®¿à®µà®¾à®• à®’à®°à¯ voice note à®…à®©à¯à®ªà¯à®ªà®µà¯à®®à¯."

/-- The fixed generic apology reply of the exception handler. -/
def apologyMsg : String :=
  "à®šà®®à¯ˆà®¯à®²à®¿à®²à¯ à®ªà®¿à®´à¯ˆ: à®ªà®¿à®±à®•à¯ à®®à¯à®¯à®±à¯à®šà®¿à®•à¯à®•à®µà¯à®®à¯."

/-- The success reply
`f"Transcript:\n{transcript}\n\nFact-check:\n{fact_result}"`. -/
def combinedReply (transcript factResult : String) : String :=
  "Transcript:\n" ++ transcript ++ "\n\nFact-check:\n" ++ factResult

/-! ### Orchestrator (`process_incoming`) -/

/-- Outcomes of the external calls a single run may make.  `sendOk`
maps a message text to whether `send_whatsapp_reply` succeeds for it
(`false` models a raised Twilio error); `removeOk` is whether
`os.remove` succeeds. -/
structure Env where
  httpOutcome : Except Unit HttpResponse
  freshName : String
  sttOutcome : Except Unit SttResponse
  genOutcome : Except Unit GenResponse
  sendOk : String → Bool
  removeOk : Bool

/-- Observable events of one run: each external call, with the send
and remove attempts carrying whether they succeeded. -/
inductive Event
  | downloadCalled (url : String)
  | transcribeCalled (path : String)
  | factCheckCalled (prompt : String)
  | sendAttempt (dest text : String) (ok : Bool)
  | removeAttempt (path : String) (ok : Bool)
deriving Repr, DecidableEq

/-- `send_whatsapp_reply`, as the orchestrator sees it: a traced
attempt whose success the environment decides. -/
def send_whatsapp_reply (env : Env) (dest text : String) : Event × Bool :=
  (Event.sendAttempt dest text (env.sendOk text), env.sendOk text)

/-- State carried through the `try` block: trace so far, file system,
the `local_path` variable, the resolved transcript (`none` when
resolution raised), and whether an exception has been raised. -/
structure OrchState where
  events : List Event
  fs : FileSys
  localPath : Option String
  transcript : Option String
  raised : Bool
deriving Repr, DecidableEq

/-- Step 1 of the `try` block, the text-vs-media branch:
`if num_media and int(num_media) > 0 and media_url:` downloads and
transcribes, `else` takes `(body or "").strip()`.  A failed `int`
conversion, download or ASR call leaves `raised := true`. -/
def inputResolution (env : Env) (fs0 : FileSys) (body num_media : String)
    (media_url : Option String) : OrchState :=
  if pyTruthy num_media then
    match pyParseInt num_media with
    | none => ⟨[], fs0, none, none, true⟩
    | some n =>
        if 0 < n then
          if optTruthy media_url then
            let url := media_url.getD ""
            match download_media env.httpOutcome env.freshName fs0 with
            | (.error _, fs1) =>
                ⟨[.downloadCalled url], fs1, none, none, true⟩
            | (.ok path, fs1) =>
                match env.sttOutcome with
                | .error _ =>
                    ⟨[.downloadCalled url, .transcribeCalled path], fs1,
                      some path, none, true⟩
                | .ok resp =>
                    ⟨[.downloadCalled url, .transcribeCalled path], fs1,
                      some path, some (sarvam_transcribe resp), false⟩
          else ⟨[], fs0, none, some (pyStrip body), false⟩
        else ⟨[], fs0, none, some (pyStrip body), false⟩
  else ⟨[], fs0, none, some (pyStrip body), false⟩

/-- Steps 2–3 of the `try` block: the empty-transcript guard and the
fact-check-and-reply path.  Does nothing when step 1 already raised.
A send whose attempt fails leaves `raised := true`. -/
def guardFactReply (env : Env) (from_number : String) (s : OrchState) :
    OrchState :=
  if s.raised then s
  else
    match s.transcript with
    | none => s
    | some t =>
        if t = "" then
          let a := send_whatsapp_reply env from_number insufficientMsg
          { s with events := s.events ++ [a.1], raised := !a.2 }
        else
          match env.genOutcome with
          | .error _ =>
              { s with events := s.events ++ [.factCheckCalled (geminiPrompt t)],
                       raised := true }
          | .ok g =>
              let reply := combinedReply t (gemini_fact_check g)
              let a := send_whatsapp_reply env from_number reply
              { s with
                  events := s.events ++ [.factCheckCalled (geminiPrompt t), a.1],
                  raised := !a.2 }

/-- The `except Exception` handler: when the `try` block raised, log
(not modelled) and send the generic apology.  Returns the state plus
whether an exception now escapes `process_incoming` (the apology send
itself raising). -/
def exceptHandler (env : Env) (from_number : String) (s : OrchState) :
    OrchState × Bool :=
  if s.raised then
    let a := send_whatsapp_reply env from_number apologyMsg
    ({ s with events := s.events ++ [a.1] }, !a.2)
  else (s, false)

/-- The `finally` block:
`if local_path and os.path.exists(local_path): try: os.remove(...)
except: pass`.  Returns the final trace and file system; a failed
removal is traced and swallowed. -/
def finallyCleanup (env : Env) (s : OrchState) : List Event × FileSys :=
  match s.localPath with
  | none => (s.events, s.fs)
  | some p =>
      if (p != "") && s.fs.contains p then
        (s.events ++ [.removeAttempt p env.removeOk],
          if env.removeOk then s.fs.erase p else s.fs)
      else (s.events, s.fs)

/-- Observable outcome of one `process_incoming` run. -/
structure RunResult where
  events : List Event
  transcript : Option String
  createdPath : Option String
  caught : Bool
  escaped : Bool
  finalFs : FileSys
deriving Repr, DecidableEq

/-- `process_incoming`: try (steps 1–3), except (apology), finally
(cleanup).  `caught` records whether the handler was entered;
`escaped` whether an exception propagated out of the function. -/
def process_incoming (env : Env) (fs0 : FileSys)
    (from_number body num_media : String) (media_url : Option String) :
    RunResult :=
  let s2 := guardFactReply env from_number
    (inputResolution env fs0 body num_media media_url)
  let h := exceptHandler env from_number s2
  let fin := finallyCleanup env h.1
  { events := fin.1, transcript := s2.transcript,
    createdPath := s2.localPath, caught := s2.raised,
    escaped := h.2, finalFs := fin.2 }

/-! ### Trace observables -/

/-- The `(to, text)` pairs of send attempts that succeeded: the
replies actually delivered. -/
def successfulSends (evs : List Event) : List (String × String) :=
  evs.filterMap fun e =>
    match e with
    | .sendAttempt dest text true => some (dest, text)
    | _ => none

/-- The `(to, text)` pairs of all send attempts, delivered or not. -/
def attemptedSends (evs : List Event) : List (String × String) :=
  evs.filterMap fun e =>
    match e with
    | .sendAttempt dest text _ => some (dest, text)
    | _ => none

/-- The prompts of the fact-check invocations. -/
def factCheckCalls (evs : List Event) : List String :=
  evs.filterMap fun e =>
    match e with
    | .factCheckCalled p => some p
    | _ => none

/-- The URLs of the media-fetcher invocations. -/
def downloadCalls (evs : List Event) : List String :=
  evs.filterMap fun e =>
    match e with
    | .downloadCalled u => some u
    | _ => none

/-! ### Webhook endpoint (`twilio_webhook`) -/

/-- The inbound form fields: `form.get` yields `none` for an absent
field. -/
structure WebhookForm where
  fromField : Option String
  bodyField : Option String
  numMediaField : Option String
  mediaUrl0Field : Option String
deriving Repr, DecidableEq

/-- A background task as enqueued: the argument tuple
`background_tasks.add_task(process_incoming, ...)` captured, not run. -/
structure PendingTask where
  from_number : Option String
  body : String
  num_media : String
  media_url : Option String
deriving Repr, DecidableEq

/-- The webhook's synchronous JSON response. -/
structure AckResponse where
  status : String
deriving Repr, DecidableEq

/-- `twilio_webhook`: extract `From`, `Body` (default `""`),
`NumMedia` (default `"0"`), `MediaUrl0`; enqueue `process_incoming`
with those arguments; return `{"status": "accepted"}`.  The pending
task is returned unexecuted. -/
def twilio_webhook (form : WebhookForm) : AckResponse × List PendingTask :=
  ({ status := "accepted" },
    [{ from_number := form.fromField,
       body := form.bodyField.getD "",
       num_media := form.numMediaField.getD "0",
       media_url := form.mediaUrl0Field }])

/-- Run an enqueued task (a missing `From` modelled as `""`; no claim
exercises a missing `From`). -/
def runPendingTask (env : Env) (fs : FileSys) (t : PendingTask) : RunResult :=
  process_incoming env fs (t.from_number.getD "") t.body t.num_media t.media_url

/-- The whole handling of one webhook request: first the synchronous
handler computes its response and the task list, then — after the
response exists — the background tasks run. -/
def handleWebhookRequest (env : Env) (fs : FileSys) (form : WebhookForm) :
    AckResponse × List RunResult :=
  let h := twilio_webhook form
  (h.1, h.2.map (runPendingTask env fs))

end FakeNews

namespace FakeNews

/-! ### Spec-side definitions used for
 refinement comparison -/

/-- The claim C5's reading of the extraction, taken from the spec's
words: try a `transcript` attribute, then a `text` attribute, and only
if both are absent consult the dump; return the extracted value
trimmed, the empty string when none are present. -/
def claimedTranscriptExtract (resp : SttResponse) : String :=
  match resp.transcriptAttr with
  | some s => pyStrip s
  | none =>
      match resp.textAttr with
      | some s => pyStrip s
      | none =>
          match resp.modelDump with
          | some d =>
              match d.1 with
              | some s => pyStrip s
              | none =>
                  match d.2 with
                  | some s => pyStrip s
                  | none => ""
          | none => ""

/-- The strategy order the code actually implements: stop at the first
strategy yielding a truthy (non-`None`, non-empty) value; the dump is
consulted whenever both attributes are absent or falsy. -/
def amendedTranscriptExtract (resp : SttResponse) : String :=
  if optTruthy resp.transcriptAttr then pyStrip (resp.transcriptAttr.getD "")
  else if optTruthy resp.textAttr then pyStrip (resp.textAttr.getD "")
  else
    match resp.modelDump with
    | some d =>
        if optTruthy d.1 then pyStrip (d.1.getD "")
        else if optTruthy d.2 then pyStrip (d.2.getD "")
        else ""
    | none => ""

end FakeNews

namespace FakeNews

/-! ### Concrete environments for witnesses and counterexamples -/

/-- An environment in which every external call succeeds. -/
def allOkEnv : Env :=
  { httpOutcome := .ok ⟨200, "audio/ogg", [0]⟩, freshName := "/tmp/a1b2",
    sttOutcome := .ok ⟨some " t ", none, none⟩,
    genOutcome := .ok ⟨some "Verdict: TRUE", "resp"⟩,
    sendOk := fun _ => true, removeOk := true }

/-- An environment in which the download, ASR, fact-check and every
send raise. -/
def allFailEnv : Env :=
  { httpOutcome := .error (), freshName := "/tmp/a1b2",
    sttOutcome := .error (), genOutcome := .error (),
    sendOk := fun _ => false, removeOk := true }

/-- Failing external calls, but sends deliver. -/
def failCallsEnv : Env := { allFailEnv with sendOk := fun _ => true }

/-- Every call succeeds except that only the apology text can be
delivered. -/
def apologyOnlyEnv : Env := { allOkEnv with sendOk := fun t => t == apologyMsg }

end FakeNews

namespace FakeNews

/-! ### Basic lemmas about the trace observables -/

theorem successfulSends_append (a b : List Event) :
    successfulSends (a ++ b) = successfulSends a ++ successfulSends b :=
  List.filterMap_append a b _

theorem attemptedSends_append (a b : List Event) :
    attemptedSends (a ++ b) = attemptedSends a ++ attemptedSends b :=
  List.filterMap_append a b _

theorem factCheckCalls_append (a b : List Event) :
    factCheckCalls (a ++ b) = factCheckCalls a ++ factCheckCalls b :=
  List.filterMap_append a b _

theorem downloadCalls_append (a b : List Event) :
    downloadCalls (a ++ b) = downloadCalls a ++ downloadCalls b :=
  List.filterMap_append a b _

theorem successfulSends_send (d t : String) (ok : Bool) :
    successfulSends [.sendAttempt d t ok] = if ok then [(d, t)] else [] := by
  cases ok <;> rfl

theorem successfulSends_fc (p : String) : successfulSends [.factCheckCalled p] = [] := rfl

theorem successfulSends_rm (p : String) (b : Bool) :
    successfulSends [.removeAttempt p b] = [] := rfl

theorem attemptedSends_send (d t : String) (ok : Bool) :
    attemptedSends [.sendAttempt d t ok] = [(d, t)] := rfl

theorem factCheckCalls_send (d t : String) (ok : Bool) :
    factCheckCalls [.sendAttempt d t ok] = [] := rfl

theorem factCheckCalls_fc (p : String) : factCheckCalls [.factCheckCalled p] = [p] := rfl

theorem successfulSends_fc_send (p d t : String) (ok : Bool) :
    successfulSends [.factCheckCalled p, .sendAttempt d t ok] =
      if ok then [(d, t)] else [] := by
  cases ok <;> rfl

theorem attemptedSends_fc_send (p d t : String) (ok : Bool) :
    attemptedSends [.factCheckCalled p, .sendAttempt d t ok] = [(d, t)] := rfl

theorem factCheckCalls_fc_send (p d t : String) (ok : Bool) :
    factCheckCalls [.factCheckCalled p, .sendAttempt d t ok] = [p] := rfl

/-! ### Stage lemmas for the orchestrator -/

theorem inputResolution_clean (env : Env) (fs0 : FileSys) (body nm : String)
    (mu : Option String) :
    factCheckCalls (inputResolution env fs0 body nm mu).events = [] ∧
    attemptedSends (inputResolution env fs0 body nm mu).events = [] ∧
    successfulSends (inputResolution env fs0 body nm mu).events = [] := by
  unfold inputResolution
  split
  · split
    · exact ⟨rfl, rfl, rfl⟩
    · split
      · split
        · split
          · exact ⟨rfl, rfl, rfl⟩
          · split
            · exact ⟨rfl, rfl, rfl⟩
            · exact ⟨rfl, rfl, rfl⟩
        · exact ⟨rfl, rfl, rfl⟩
      · exact ⟨rfl, rfl, rfl⟩
  · exact ⟨rfl, rfl, rfl⟩

theorem inputResolution_raised_iff (env : Env) (fs0 : FileSys) (body nm : String)
    (mu : Option String) :
    (inputResolution env fs0 body nm mu).raised = true ↔
    (inputResolution env fs0 body nm mu).transcript = none := by
  unfold inputResolution
  split
  · split
    · simp
    · split
      · split
        · split
          · simp
          · split <;> simp
        · simp
      · simp
  · simp

theorem guardFactReply_transcript (env : Env) (fn : String) (s : OrchState) :
    (guardFactReply env fn s).transcript = s.transcript := by
  unfold guardFactReply
  split
  · rfl
  · split
    · rfl
    · split
      · rfl
      · split <;> rfl

theorem guardFactReply_localPath (env : Env) (fn : String) (s : OrchState) :
    (guardFactReply env fn s).localPath = s.localPath := by
  unfold guardFactReply
  split
  · rfl
  · split
    · rfl
    · split
      · rfl
      · split <;> rfl

theorem guardFactReply_fs (env : Env) (fn : String) (s : OrchState) :
    (guardFactReply env fn s).fs = s.fs := by
  unfold guardFactReply
  split
  · rfl
  · split
    · rfl
    · split
      · rfl
      · split <;> rfl

theorem guardFactReply_downloads (env : Env) (fn : String) (s : OrchState) :
    downloadCalls (guardFactReply env fn s).events = downloadCalls s.events := by
  unfold guardFactReply
  split
  · rfl
  · split
    · rfl
    · split
      · simp [downloadCalls_append]
        rfl
      · split
        · simp [downloadCalls_append]
          rfl
        · simp [downloadCalls_append]
          rfl

theorem guardFactReply_of_raised (env : Env) (fn : String) (s : OrchState)
    (h : s.raised = true) : guardFactReply env fn s = s := by
  unfold guardFactReply
  simp [h]

theorem guardFactReply_empty (env : Env) (fn : String) (s : OrchState)
    (h1 : s.raised = false) (h2 : s.transcript = some "") :
    guardFactReply env fn s =
      { s with
          events := s.events ++
            [.sendAttempt fn insufficientMsg (env.sendOk insufficientMsg)],
          raised := !env.sendOk insufficientMsg } := by
  unfold guardFactReply send_whatsapp_reply
  rw [h2]
  simp [h1]

theorem guardFactReply_go (env : Env) (fn : String) (s : OrchState)
    (t : String) (g : GenResponse)
    (h1 : s.raised = false) (h2 : s.transcript = some t) (ht : t ≠ "")
    (hg : env.genOutcome = .ok g) :
    guardFactReply env fn s =
      { s with
          events := s.events ++
            [.factCheckCalled (geminiPrompt t),
             .sendAttempt fn (combinedReply t (gemini_fact_check g))
               (env.sendOk (combinedReply t (gemini_fact_check g)))],
          raised := !env.sendOk (combinedReply t (gemini_fact_check g)) } := by
  unfold guardFactReply send_whatsapp_reply
  rw [h2]
  simp [h1, ht, hg]

theorem exceptHandler_raised (env : Env) (fn : String) (s : OrchState)
    (h : s.raised = true) :
    exceptHandler env fn s =
      ({ s with events := s.events ++
          [.sendAttempt fn apologyMsg (env.sendOk apologyMsg)] },
        !env.sendOk apologyMsg) := by
  unfold exceptHandler send_whatsapp_reply
  simp [h]

theorem exceptHandler_ok (env : Env) (fn : String) (s : OrchState)
    (h : s.raised = false) : exceptHandler env fn s = (s, false) := by
  unfold exceptHandler
  simp [h]

theorem finallyCleanup_sends (env : Env) (s : OrchState) :
    successfulSends (finallyCleanup env s).1 = successfulSends s.events ∧
    attemptedSends (finallyCleanup env s).1 = attemptedSends s.events ∧
    factCheckCalls (finallyCleanup env s).1 = factCheckCalls s.events ∧
    downloadCalls (finallyCleanup env s).1 = downloadCalls s.events := by
  unfold finallyCleanup
  split
  · exact ⟨rfl, rfl, rfl, rfl⟩
  · split
    · refine ⟨?_, ?_, ?_, ?_⟩ <;>
        simp [successfulSends_append, attemptedSends_append,
          factCheckCalls_append, downloadCalls_append,
          successfulSends_rm] <;> rfl
    · exact ⟨rfl, rfl, rfl, rfl⟩

theorem guardFactReply_noneT (env : Env) (fn : String) (s : OrchState)
    (h2 : s.transcript = none) : guardFactReply env fn s = s := by
  unfold guardFactReply
  rw [h2]
  split <;> rfl

theorem guardFactReply_genFail (env : Env) (fn : String) (s : OrchState)
    (t : String)
    (h1 : s.raised = false) (h2 : s.transcript = some t) (ht : t ≠ "")
    (hg : env.genOutcome = .error ()) :
    guardFactReply env fn s =
      { s with
          events := s.events ++ [.factCheckCalled (geminiPrompt t)],
          raised := true } := by
  unfold guardFactReply
  rw [h2]
  simp [h1, ht, hg]

theorem guard_raised_no_success (env : Env) (fn : String) (s : OrchState)
    (hclean : successfulSends s.events = [])
    (h : (guardFactReply env fn s).raised = true) :
    successfulSends (guardFactReply env fn s).events = [] := by
  by_cases hr : s.raised = true
  · rw [guardFactReply_of_raised env fn s hr]
    exact hclean
  · replace hr : s.raised = false := by simpa using hr
    cases htr : s.transcript with
    | none =>
        rw [guardFactReply_noneT env fn s htr]
        exact hclean
    | some t =>
        by_cases hte : t = ""
        · subst hte
          rw [guardFactReply_empty env fn s hr htr] at h ⊢
          simp only at h
          simp [successfulSends_append, successfulSends_send, hclean]
          simpa using h
        · cases hg : env.genOutcome with
          | error u =>
              rw [guardFactReply_genFail env fn s t hr htr hte hg]
              simp [successfulSends_append, successfulSends_fc, hclean]
          | ok g =>
              rw [guardFactReply_go env fn s t g hr htr hte hg] at h ⊢
              simp only at h
              have hok : env.sendOk (combinedReply t (gemini_fact_check g)) = false := by
                simpa using h
              simp [successfulSends_append, hclean, successfulSends_fc_send, hok]

end FakeNews

namespace FakeNews

/-! ### Further stage lemmas -/

theorem exceptHandler_transcript (env : Env) (fn : String) (s : OrchState) :
    (exceptHandler env fn s).1.transcript = s.transcript := by
  unfold exceptHandler send_whatsapp_reply
  split <;> rfl

theorem exceptHandler_localPath (env : Env) (fn : String) (s : OrchState) :
    (exceptHandler env fn s).1.localPath = s.localPath := by
  unfold exceptHandler send_whatsapp_reply
  split <;> rfl

theorem exceptHandler_fs (env : Env) (fn : String) (s : OrchState) :
    (exceptHandler env fn s).1.fs = s.fs := by
  unfold exceptHandler send_whatsapp_reply
  split <;> rfl

theorem exceptHandler_factChecks (env : Env) (fn : String) (s : OrchState) :
    factCheckCalls (exceptHandler env fn s).1.events = factCheckCalls s.events := by
  unfold exceptHandler send_whatsapp_reply
  split
  · simp [factCheckCalls_append, factCheckCalls_send]
  · rfl

theorem exceptHandler_downloads (env : Env) (fn : String) (s : OrchState) :
    downloadCalls (exceptHandler env fn s).1.events = downloadCalls s.events := by
  unfold exceptHandler send_whatsapp_reply
  split
  · simp [downloadCalls_append]
    rfl
  · rfl

theorem finallyCleanup_noneP (env : Env) (s : OrchState)
    (h : s.localPath = none) : finallyCleanup env s = (s.events, s.fs) := by
  unfold finallyCleanup
  rw [h]

theorem extFor_ne_empty (ct : String) : extFor ct ≠ "" := by
  unfold extFor
  split
  · decide
  · split
    · decide
    · split <;> decide

theorem strAppend_ne_empty (a b : String) (hb : b ≠ "") : a ++ b ≠ "" := by
  cases a with
  | mk la =>
  cases b with
  | mk lb =>
  intro h
  apply hb
  have h2 : la ++ lb = [] := congrArg String.data h
  rw [List.append_eq_nil] at h2
  rw [h2.2]

theorem strAppend_assoc (a b c : String) : (a ++ b) ++ c = a ++ (b ++ c) := by
  cases a with
  | mk la =>
  cases b with
  | mk lb =>
  cases c with
  | mk lc =>
  show String.mk ((la ++ lb) ++ lc) = String.mk (la ++ (lb ++ lc))
  rw [List.append_assoc]

theorem finallyCleanup_someP (env : Env) (s : OrchState) (p : String)
    (h : s.localPath = some p) (hc : ((p != "") && s.fs.contains p) = true) :
    finallyCleanup env s =
      (s.events ++ [.removeAttempt p env.removeOk],
        if env.removeOk then s.fs.erase p else s.fs) := by
  unfold finallyCleanup
  rw [h]
  simp only [hc]
  rfl

theorem cleanup_pipeline_none (env : Env) (fn : String) (s1 : OrchState)
    (fs0 : FileSys) (hlp : s1.localPath = none) (hfs : s1.fs = fs0) :
    (finallyCleanup env (exceptHandler env fn (guardFactReply env fn s1)).1).2 =
      fs0 := by
  have h1 : (exceptHandler env fn (guardFactReply env fn s1)).1.localPath = none := by
    rw [exceptHandler_localPath, guardFactReply_localPath, hlp]
  rw [finallyCleanup_noneP env _ h1, exceptHandler_fs, guardFactReply_fs, hfs]

theorem cleanup_pipeline_some (env : Env) (fn : String) (s1 : OrchState)
    (fs0 : FileSys) (p : String)
    (hlp : s1.localPath = some p) (hfs : s1.fs = p :: fs0) (hp : p ≠ "") :
    Event.removeAttempt p env.removeOk ∈
      (finallyCleanup env (exceptHandler env fn (guardFactReply env fn s1)).1).1 ∧
    (env.removeOk = true →
      (finallyCleanup env (exceptHandler env fn (guardFactReply env fn s1)).1).2 =
        fs0) := by
  have h1 : (exceptHandler env fn (guardFactReply env fn s1)).1.localPath = some p := by
    rw [exceptHandler_localPath, guardFactReply_localPath, hlp]
  have h2 : (exceptHandler env fn (guardFactReply env fn s1)).1.fs = p :: fs0 := by
    rw [exceptHandler_fs, guardFactReply_fs, hfs]
  have hcond : ((p != "") &&
      (exceptHandler env fn (guardFactReply env fn s1)).1.fs.contains p) = true := by
    rw [h2]
    simp [hp]
  rw [finallyCleanup_someP env _ p h1 hcond]
  constructor
  · simp
  · intro hrm
    rw [h2, hrm]
    simp

theorem process_incoming_removeOk_irrelevant (env : Env) (b : Bool)
    (fs0 : FileSys) (fn body nm : String) (mu : Option String) :
    (process_incoming { env with removeOk := b } fs0 fn body nm mu).escaped =
      (process_incoming env fs0 fn body nm mu).escaped ∧
    (process_incoming { env with removeOk := b } fs0 fn body nm mu).caught =
      (process_incoming env fs0 fn body nm mu).caught ∧
    (process_incoming { env with removeOk := b } fs0 fn body nm mu).transcript =
      (process_incoming env fs0 fn body nm mu).transcript ∧
    successfulSends (process_incoming { env with removeOk := b } fs0 fn body nm mu).events =
      successfulSends (process_incoming env fs0 fn body nm mu).events := by
  refine ⟨rfl, rfl, rfl, ?_⟩
  exact ((finallyCleanup_sends { env with removeOk := b } _).1.trans
    ((finallyCleanup_sends env _).1).symm)

end FakeNews

namespace FakeNews

/-! ### Input-resolution shape lemmas -/

theorem inputResolution_zero (env : Env) (fs0 : FileSys) (body : String)
    (mu : Option String) :
    inputResolution env fs0 body "0" mu =
      ⟨[], fs0, none, some (pyStrip body), false⟩ := rfl

theorem inputResolution_badInt (env : Env) (fs0 : FileSys) (body nm : String)
    (mu : Option String) (hnm : pyTruthy nm = true) (hp : pyParseInt nm = none) :
    inputResolution env fs0 body nm mu = ⟨[], fs0, none, none, true⟩ := by
  unfold inputResolution
  rw [hnm, hp]
  simp

theorem inputResolution_media_dlErr (env : Env) (fs0 : FileSys)
    (body nm u : String) (n : Int)
    (hnm : pyTruthy nm = true) (hn : pyParseInt nm = some n) (hpos : 0 < n)
    (hu : u ≠ "") (hh : env.httpOutcome = .error ()) :
    inputResolution env fs0 body nm (some u) =
      ⟨[.downloadCalled u], fs0, none, none, true⟩ := by
  unfold inputResolution download_media
  rw [hnm, hn, hh]
  simp [hpos, optTruthy, hu]

theorem inputResolution_media_dlHttpErr (env : Env) (fs0 : FileSys)
    (body nm u : String) (n : Int) (resp : HttpResponse)
    (hnm : pyTruthy nm = true) (hn : pyParseInt nm = some n) (hpos : 0 < n)
    (hu : u ≠ "") (hh : env.httpOutcome = .ok resp)
    (hrs : raiseForStatusFails resp.statusCode = true) :
    inputResolution env fs0 body nm (some u) =
      ⟨[.downloadCalled u], fs0, none, none, true⟩ := by
  unfold inputResolution download_media
  rw [hnm, hn, hh]
  simp [hpos, optTruthy, hu, hrs]

theorem inputResolution_media_sttErr (env : Env) (fs0 : FileSys)
    (body nm u : String) (n : Int) (resp : HttpResponse)
    (hnm : pyTruthy nm = true) (hn : pyParseInt nm = some n) (hpos : 0 < n)
    (hu : u ≠ "") (hh : env.httpOutcome = .ok resp)
    (hrs : raiseForStatusFails resp.statusCode = false)
    (hst : env.sttOutcome = .error ()) :
    inputResolution env fs0 body nm (some u) =
      ⟨[.downloadCalled u,
        .transcribeCalled (env.freshName ++ extFor resp.contentType)],
        (env.freshName ++ extFor resp.contentType) :: fs0,
        some (env.freshName ++ extFor resp.contentType), none, true⟩ := by
  unfold inputResolution download_media
  rw [hnm, hn, hh, hst]
  simp [hpos, optTruthy, hu, hrs]

theorem inputResolution_media_ok (env : Env) (fs0 : FileSys)
    (body nm u : String) (n : Int) (resp : HttpResponse) (sresp : SttResponse)
    (hnm : pyTruthy nm = true) (hn : pyParseInt nm = some n) (hpos : 0 < n)
    (hu : u ≠ "") (hh : env.httpOutcome = .ok resp)
    (hrs : raiseForStatusFails resp.statusCode = false)
    (hst : env.sttOutcome = .ok sresp) :
    inputResolution env fs0 body nm (some u) =
      ⟨[.downloadCalled u,
        .transcribeCalled (env.freshName ++ extFor resp.contentType)],
        (env.freshName ++ extFor resp.contentType) :: fs0,
        some (env.freshName ++ extFor resp.contentType),
        some (sarvam_transcribe sresp), false⟩ := by
  unfold inputResolution download_media
  rw [hnm, hn, hh, hst]
  simp [hpos, optTruthy, hu, hrs]

end FakeNews

namespace FakeNews

/-! ### Claim theorems -/

/-- C5, counterexample: a response whose `transcript` attribute is
present but the empty string (falsy in Python) defeats the claimed
"dump only if both attributes are absent" order: the code falls
through to the dump and returns its `text` field, where the claimed
strategy order would return `""` from the present attribute. -/
theorem c5_counterexample :
    sarvam_transcribe ⟨some "", none, some (none, some "hello")⟩ = "hello" ∧
    claimedTranscriptExtract ⟨some "", none, some (none, some "hello")⟩ = "" ∧
    sarvam_transcribe ⟨some "", none, some (none, some "hello")⟩ ≠
      claimedTranscriptExtract ⟨some "", none, some (none, some "hello")⟩ := by
  decide

/-- C5 (amended): `sarvam_transcribe` tries the strategies in order —
`transcript` attribute, `text` attribute, then the structured dump's
`transcript` and `text` fields — stopping at the first truthy
(non-`None`, non-empty) value and consulting the dump whenever both
attributes are absent or falsy; it returns the extracted value trimmed
of surrounding whitespace, and the empty string when every strategy is
falsy.  In particular, a response carrying only a `text` field yields
that field's trimmed value. -/
theorem c5_extractionOrder (resp : SttResponse) :
    sarvam_transcribe resp = amendedTranscriptExtract resp := by
  rcases resp with ⟨ta, tx, md⟩
  unfold sarvam_transcribe amendedTranscriptExtract pyOrStr
  by_cases h1 : optTruthy ta = true
  · simp only [h1, if_true]
  · simp only [Bool.not_eq_true] at h1
    simp only [h1, Bool.false_eq_true, if_false]
    by_cases h2 : optTruthy tx = true
    · simp only [h2, if_true]
    · simp only [Bool.not_eq_true] at h2
      simp only [h2, Bool.false_eq_true, if_false]
      rcases md with _ | ⟨d1, d2⟩
      · decide
      · simp only []
        by_cases h3 : optTruthy d1 = true
        · simp only [h3, if_true]
        · simp only [Bool.not_eq_true] at h3
          simp only [h3, Bool.false_eq_true, if_false]
          by_cases h4 : optTruthy d2 = true
          · simp only [h4, if_true]
          · simp only [Bool.not_eq_true] at h4
            simp only [h4, Bool.false_eq_true, if_false]
            decide

/-- C6: on a 2xx/3xx response `download_media` creates exactly one
file whose extension is chosen solely from the declared content type —
`.opus` when it mentions `opus` or `ogg`, else `.wav` when it mentions
`wav`, else `.mp3` when it mentions `mpeg` or `mp3`, else `.bin` — and
on a 4xx/5xx response it propagates an error to the caller and leaves
the file system untouched. -/
theorem c6_downloadMedia (resp : HttpResponse) (fresh : String) (fs : FileSys) :
    (raiseForStatusFails resp.statusCode = true →
      download_media (.ok resp) fresh fs =
        (.error (.httpError resp.statusCode), fs)) ∧
    (raiseForStatusFails resp.statusCode = false →
      download_media (.ok resp) fresh fs =
        (.ok (fresh ++ extFor resp.contentType),
          (fresh ++ extFor resp.contentType) :: fs)) ∧
    ((strHasSub resp.contentType "opus" || strHasSub resp.contentType "ogg") = true →
      extFor resp.contentType = ".opus") ∧
    ((strHasSub resp.contentType "opus" || strHasSub resp.contentType "ogg") = false →
      strHasSub resp.contentType "wav" = true →
      extFor resp.contentType = ".wav") ∧
    ((strHasSub resp.contentType "opus" || strHasSub resp.contentType "ogg") = false →
      strHasSub resp.contentType "wav" = false →
      (strHasSub resp.contentType "mpeg" || strHasSub resp.contentType "mp3") = true →
      extFor resp.contentType = ".mp3") ∧
    ((strHasSub resp.contentType "opus" || strHasSub resp.contentType "ogg") = false →
      strHasSub resp.contentType "wav" = false →
      (strHasSub resp.contentType "mpeg" || strHasSub resp.contentType "mp3") = false →
      extFor resp.contentType = ".bin") := by
  refine ⟨?_, ?_, ?_, ?_, ?_, ?_⟩
  · intro h
    unfold download_media
    simp [h]
  · intro h
    unfold download_media
    simp [h]
  · intro h
    unfold extFor
    simp [h]
  · intro h1 h2
    unfold extFor
    simp [h1, h2]
  · intro h1 h2 h3
    unfold extFor
    simp [h1, h2, h3]
  · intro h1 h2 h3
    unfold extFor
    simp [h1, h2, h3]

/-- C6, witness: a 404 propagates without creating a file. -/
theorem c6_downloadMedia_witness :
    raiseForStatusFails 404 = true ∧
    download_media (.ok ⟨404, "audio/ogg", []⟩) "/tmp/f" [] =
      (.error (.httpError 404), []) :=
  ⟨by decide, (c6_downloadMedia ⟨404, "audio/ogg", []⟩ "/tmp/f" []).1 (by decide)⟩

/-- C8: the webhook's synchronous response is the fixed
acknowledgement, identical whatever the environment and file system
the background processing will see — processing is not on the
request's synchronous path — and `process_incoming` is scheduled
exactly once, as a pending background task carrying the extracted
`From`, `Body` (default `""`), `NumMedia` (default `"0"`) and
`MediaUrl0` fields, run only after the response exists. -/
theorem c8_ackBeforeProcessing (form : WebhookForm) (env env2 : Env)
    (fs fs2 : FileSys) :
    (handleWebhookRequest env fs form).1 = { status := "accepted" } ∧
    (handleWebhookRequest env fs form).1 = (handleWebhookRequest env2 fs2 form).1 ∧
    (twilio_webhook form).2 =
      [{ from_number := form.fromField, body := form.bodyField.getD "",
         num_media := form.numMediaField.getD "0",
         media_url := form.mediaUrl0Field }] ∧
    (handleWebhookRequest env fs form).2 =
      [runPendingTask env fs
        { from_number := form.fromField, body := form.bodyField.getD "",
          num_media := form.numMediaField.getD "0",
          media_url := form.mediaUrl0Field }] :=
  ⟨rfl, rfl, rfl, rfl⟩

/-- C10: when the generative-model response has no `text` attribute,
`gemini_fact_check` does not raise; it returns `str(resp)`, the string
rendering of the whole response object. -/
theorem c10_missingText (resp : GenResponse) (h : resp.textAttr = none) :
    gemini_fact_check resp = resp.strRendering := by
  unfold gemini_fact_check
  rw [h]

/-- C10, witness. -/
theorem c10_missingText_witness :
    (⟨none, "GenerateContentResponse(...)"⟩ : GenResponse).textAttr = none ∧
    gemini_fact_check ⟨none, "GenerateContentResponse(...)"⟩ =
      "GenerateContentResponse(...)" :=
  ⟨rfl, c10_missingText ⟨none, "GenerateContentResponse(...)"⟩ rfl⟩

end FakeNews

namespace FakeNews

/-- C1, counterexample: in a run where the media download raises and
the apology send itself also raises, a pipeline step raised and the
handler was entered, yet an exception escapes `process_incoming` and
no reply at all is delivered — not "exactly one generic apology". -/
theorem c1_counterexample :
    (process_incoming allFailEnv [] "whatsapp:+1" "" "1" (some "http://u")).caught
        = true ∧
    (process_incoming allFailEnv [] "whatsapp:+1" "" "1" (some "http://u")).escaped
        = true ∧
    successfulSends
        (process_incoming allFailEnv [] "whatsapp:+1" "" "1" (some "http://u")).events
      = [] := by
  decide

/-- C1 (amended): whenever any step of the try block (media download,
transcription, fact-check, or the reply send) raises, the exception is
caught by the handler, which sends the fixed generic apology; provided
that apology send itself does not raise, nothing escapes
`process_incoming` and exactly one reply is delivered to the original
sender — the apology. -/
theorem c1_errorPath (env : Env) (fs0 : FileSys) (fn body nm : String)
    (mu : Option String)
    (hc : (process_incoming env fs0 fn body nm mu).caught = true)
    (hs : env.sendOk apologyMsg = true) :
    (process_incoming env fs0 fn body nm mu).escaped = false ∧
    successfulSends (process_incoming env fs0 fn body nm mu).events =
      [(fn, apologyMsg)] := by
  have hc2 : (guardFactReply env fn (inputResolution env fs0 body nm mu)).raised
      = true := hc
  have hns := guard_raised_no_success env fn _
    (inputResolution_clean env fs0 body nm mu).2.2 hc2
  constructor
  · show (exceptHandler env fn
      (guardFactReply env fn (inputResolution env fs0 body nm mu))).2 = false
    rw [exceptHandler_raised env fn _ hc2, hs]
    rfl
  · show successfulSends (finallyCleanup env
      (exceptHandler env fn
        (guardFactReply env fn (inputResolution env fs0 body nm mu))).1).1 =
      [(fn, apologyMsg)]
    rw [(finallyCleanup_sends env _).1, exceptHandler_raised env fn _ hc2]
    simp only []
    rw [successfulSends_append, hns, successfulSends_send, hs]
    rfl

/-- C1, witness: a run whose download raises but whose sends deliver
satisfies the hypotheses, and exactly the apology is sent. -/
theorem c1_errorPath_witness :
    (process_incoming failCallsEnv [] "w" "hi" "1" (some "http://u")).caught
        = true ∧
    failCallsEnv.sendOk apologyMsg = true ∧
    ((process_incoming failCallsEnv [] "w" "hi" "1" (some "http://u")).escaped
        = false ∧
      successfulSends
          (process_incoming failCallsEnv [] "w" "hi" "1" (some "http://u")).events
        = [("w", apologyMsg)]) :=
  ⟨by decide, by decide,
    c1_errorPath failCallsEnv [] "w" "hi" "1" (some "http://u")
      (by decide) (by decide)⟩

end FakeNews

namespace FakeNews

/-- C2, counterexample: a run with an empty resolved transcript in
which the insufficient-content send raises.  The fact-check client is
indeed never invoked, but the reply actually delivered is the generic
apology, not the fixed insufficient-content message, so the claim's
"sends exactly the fixed insufficient-content reply and stops" fails. -/
theorem c2_counterexample :
    (process_incoming apologyOnlyEnv [] "w" "" "0" none).transcript = some "" ∧
    successfulSends (process_incoming apologyOnlyEnv [] "w" "" "0" none).events
      = [("w", apologyMsg)] ∧
    apologyMsg ≠ insufficientMsg := by
  decide

/-- C2 (amended): whenever the resolved transcript is the empty string
after trimming, the fact-check client is never invoked (in any
environment); the orchestrator attempts the fixed insufficient-content
reply, and provided that send does not raise, it is the only reply
sent, no exception arises, and processing stops. -/
theorem c2_emptyGuard (env : Env) (fs0 : FileSys) (fn body nm : String)
    (mu : Option String)
    (ht : (process_incoming env fs0 fn body nm mu).transcript = some "") :
    factCheckCalls (process_incoming env fs0 fn body nm mu).events = [] ∧
    (env.sendOk insufficientMsg = true →
      (process_incoming env fs0 fn body nm mu).caught = false ∧
      (process_incoming env fs0 fn body nm mu).escaped = false ∧
      successfulSends (process_incoming env fs0 fn body nm mu).events =
        [(fn, insufficientMsg)]) := by
  have ht2 : (guardFactReply env fn (inputResolution env fs0 body nm mu)).transcript
      = some "" := ht
  rw [guardFactReply_transcript] at ht2
  have hr : (inputResolution env fs0 body nm mu).raised = false := by
    by_cases h : (inputResolution env fs0 body nm mu).raised = true
    · rw [(inputResolution_raised_iff env fs0 body nm mu).mp h] at ht2
      exact absurd ht2 (by simp)
    · simpa using h
  have hguard := guardFactReply_empty env fn _ hr ht2
  constructor
  · show factCheckCalls (finallyCleanup env
      (exceptHandler env fn
        (guardFactReply env fn (inputResolution env fs0 body nm mu))).1).1 = []
    rw [(finallyCleanup_sends env _).2.2.1, exceptHandler_factChecks, hguard]
    simp only []
    rw [factCheckCalls_append, (inputResolution_clean env fs0 body nm mu).1,
      factCheckCalls_send]
    rfl
  · intro hsend
    have hr2 : (guardFactReply env fn (inputResolution env fs0 body nm mu)).raised
        = false := by
      rw [hguard]
      simp [hsend]
    refine ⟨hr2, ?_, ?_⟩
    · show (exceptHandler env fn
        (guardFactReply env fn (inputResolution env fs0 body nm mu))).2 = false
      rw [exceptHandler_ok env fn _ hr2]
    · show successfulSends (finallyCleanup env
        (exceptHandler env fn
          (guardFactReply env fn (inputResolution env fs0 body nm mu))).1).1 =
        [(fn, insufficientMsg)]
      rw [(finallyCleanup_sends env _).1, exceptHandler_ok env fn _ hr2, hguard]
      simp only []
      rw [successfulSends_append, (inputResolution_clean env fs0 body nm mu).2.2,
        successfulSends_send, hsend]
      rfl

/-- C2, witness: an all-whitespace text body under an all-succeeding
environment satisfies the hypotheses; the insufficient-content reply
is the single reply sent. -/
theorem c2_emptyGuard_witness :
    (process_incoming allOkEnv [] "w" "  " "0" none).transcript = some "" ∧
    allOkEnv.sendOk insufficientMsg = true ∧
    (factCheckCalls (process_incoming allOkEnv [] "w" "  " "0" none).events = [] ∧
      ((process_incoming allOkEnv [] "w" "  " "0" none).caught = false ∧
        (process_incoming allOkEnv [] "w" "  " "0" none).escaped = false ∧
        successfulSends (process_incoming allOkEnv [] "w" "  " "0" none).events =
          [("w", insufficientMsg)])) :=
  ⟨by decide, by decide,
    ⟨(c2_emptyGuard allOkEnv [] "w" "  " "0" none (by decide)).1,
      (c2_emptyGuard allOkEnv [] "w" "  " "0" none (by decide)).2 (by decide)⟩⟩

end FakeNews

namespace FakeNews

/-- C3: with `NumMedia = "0"` and a non-empty body, the resolved
transcript is exactly the trimmed body and the media fetcher is never
invoked, in every environment. -/
theorem c3_textBranch (env : Env) (fs0 : FileSys) (fn body : String)
    (mu : Option String) (_hb : body ≠ "") :
    (process_incoming env fs0 fn body "0" mu).transcript = some (pyStrip body) ∧
    downloadCalls (process_incoming env fs0 fn body "0" mu).events = [] := by
  constructor
  · show (guardFactReply env fn (inputResolution env fs0 body "0" mu)).transcript
      = some (pyStrip body)
    rw [guardFactReply_transcript, inputResolution_zero]
  · show downloadCalls (finallyCleanup env
      (exceptHandler env fn
        (guardFactReply env fn (inputResolution env fs0 body "0" mu))).1).1 = []
    rw [(finallyCleanup_sends env _).2.2.2, exceptHandler_downloads,
      guardFactReply_downloads, inputResolution_zero]
    rfl

/-- C3, witness. -/
theorem c3_textBranch_witness :
    ("hello" : String) ≠ "" ∧
    ((process_incoming allOkEnv [] "w" "hello" "0" none).transcript =
        some (pyStrip "hello") ∧
      downloadCalls (process_incoming allOkEnv [] "w" "hello" "0" none).events
        = []) :=
  ⟨by decide, c3_textBranch allOkEnv [] "w" "hello" none (by decide)⟩

/-- C9: when `num_media` is a non-empty string that is not a valid
integer literal, `int()` raises in the branch condition itself, so the
run takes the error path: the transcript is never resolved (the text
body is not used as a fallback), neither the media fetcher nor the
fact-check client is ever invoked, the only reply attempted is the
fixed generic apology, and when that send succeeds it is the single
reply delivered and nothing escapes. -/
theorem c9_badNumMedia (env : Env) (fs0 : FileSys) (fn body nm : String)
    (mu : Option String) (hnm : pyTruthy nm = true) (hp : pyParseInt nm = none) :
    (process_incoming env fs0 fn body nm mu).caught = true ∧
    (process_incoming env fs0 fn body nm mu).transcript = none ∧
    downloadCalls (process_incoming env fs0 fn body nm mu).events = [] ∧
    factCheckCalls (process_incoming env fs0 fn body nm mu).events = [] ∧
    attemptedSends (process_incoming env fs0 fn body nm mu).events =
      [(fn, apologyMsg)] ∧
    (env.sendOk apologyMsg = true →
      (process_incoming env fs0 fn body nm mu).escaped = false ∧
      successfulSends (process_incoming env fs0 fn body nm mu).events =
        [(fn, apologyMsg)]) := by
  have hir := inputResolution_badInt env fs0 body nm mu hnm hp
  have hr : (inputResolution env fs0 body nm mu).raised = true := by
    rw [hir]
  have hguard := guardFactReply_of_raised env fn _ hr
  have hraised2 : (guardFactReply env fn (inputResolution env fs0 body nm mu)).raised
      = true := by
    rw [hguard]
    exact hr
  have hexc := exceptHandler_raised env fn _ hraised2
  refine ⟨hraised2, ?_, ?_, ?_, ?_, ?_⟩
  · show (guardFactReply env fn (inputResolution env fs0 body nm mu)).transcript
      = none
    rw [guardFactReply_transcript, hir]
  · show downloadCalls (finallyCleanup env
      (exceptHandler env fn
        (guardFactReply env fn (inputResolution env fs0 body nm mu))).1).1 = []
    rw [(finallyCleanup_sends env _).2.2.2, exceptHandler_downloads,
      guardFactReply_downloads, hir]
    rfl
  · show factCheckCalls (finallyCleanup env
      (exceptHandler env fn
        (guardFactReply env fn (inputResolution env fs0 body nm mu))).1).1 = []
    rw [(finallyCleanup_sends env _).2.2.1, exceptHandler_factChecks, hguard, hir]
    rfl
  · show attemptedSends (finallyCleanup env
      (exceptHandler env fn
        (guardFactReply env fn (inputResolution env fs0 body nm mu))).1).1 =
      [(fn, apologyMsg)]
    rw [(finallyCleanup_sends env _).2.1, hexc]
    simp only []
    rw [hguard, hir]
    rfl
  · intro hs
    constructor
    · show (exceptHandler env fn
        (guardFactReply env fn (inputResolution env fs0 body nm mu))).2 = false
      rw [hexc, hs]
      rfl
    · show successfulSends (finallyCleanup env
        (exceptHandler env fn
          (guardFactReply env fn (inputResolution env fs0 body nm mu))).1).1 =
        [(fn, apologyMsg)]
      rw [(finallyCleanup_sends env _).1, hexc]
      simp only []
      rw [hguard, hir]
      simp only []
      rw [successfulSends_append]
      simp only [successfulSends_send, hs]
      rfl

/-- C9, witness: `num_media = "abc"` with a non-empty body. -/
theorem c9_badNumMedia_witness :
    pyTruthy "abc" = true ∧ pyParseInt "abc" = none ∧
    ((process_incoming failCallsEnv [] "w" "body text" "abc" none).caught = true ∧
      (process_incoming failCallsEnv [] "w" "body text" "abc" none).transcript = none ∧
      downloadCalls (process_incoming failCallsEnv [] "w" "body text" "abc" none).events = [] ∧
      factCheckCalls (process_incoming failCallsEnv [] "w" "body text" "abc" none).events = [] ∧
      attemptedSends (process_incoming failCallsEnv [] "w" "body text" "abc" none).events =
        [("w", apologyMsg)] ∧
      (failCallsEnv.sendOk apologyMsg = true →
        (process_incoming failCallsEnv [] "w" "body text" "abc" none).escaped = false ∧
        successfulSends (process_incoming failCallsEnv [] "w" "body text" "abc" none).events =
          [("w", apologyMsg)])) :=
  ⟨by decide, by decide,
    c9_badNumMedia failCallsEnv [] "w" "body text" "abc" none (by decide) (by decide)⟩

end FakeNews

namespace FakeNews

/-- C7: in a run whose resolved transcript is non-empty and in which
no exception occurs, the fact-check client is called exactly once,
with the exact transcript embedded in the fixed prompt, and the single
reply sent combines the literal transcript and the fact-check result
text unmodified. -/
theorem c7_happyPath (env : Env) (fs0 : FileSys) (fn body nm : String)
    (mu : Option String) (t : String) (g : GenResponse)
    (ht : (process_incoming env fs0 fn body nm mu).transcript = some t)
    (hne : t ≠ "")
    (hg : env.genOutcome = .ok g)
    (hsend : env.sendOk (combinedReply t (gemini_fact_check g)) = true) :
    (process_incoming env fs0 fn body nm mu).caught = false ∧
    (process_incoming env fs0 fn body nm mu).escaped = false ∧
    factCheckCalls (process_incoming env fs0 fn body nm mu).events =
      [geminiPrompt t] ∧
    geminiPrompt t = promptPre ++ t ++ promptPost ∧
    successfulSends (process_incoming env fs0 fn body nm mu).events =
      [(fn, combinedReply t (gemini_fact_check g))] ∧
    combinedReply t (gemini_fact_check g) =
      "Transcript:\n" ++ (t ++ ("\n\nFact-check:\n" ++ gemini_fact_check g)) ∧
    combinedReply t (gemini_fact_check g) =
      ("Transcript:\n" ++ t ++ "\n\nFact-check:\n") ++ gemini_fact_check g := by
  have ht2 : (inputResolution env fs0 body nm mu).transcript = some t := by
    have := ht
    rw [show (process_incoming env fs0 fn body nm mu).transcript =
      (guardFactReply env fn (inputResolution env fs0 body nm mu)).transcript
      from rfl, guardFactReply_transcript] at this
    exact this
  have hr : (inputResolution env fs0 body nm mu).raised = false := by
    by_cases h : (inputResolution env fs0 body nm mu).raised = true
    · rw [(inputResolution_raised_iff env fs0 body nm mu).mp h] at ht2
      exact absurd ht2 (by simp)
    · simpa using h
  have hguard := guardFactReply_go env fn _ t g hr ht2 hne hg
  have hr2 : (guardFactReply env fn (inputResolution env fs0 body nm mu)).raised
      = false := by
    rw [hguard]
    simp [hsend]
  refine ⟨hr2, ?_, ?_, rfl, ?_, ?_, rfl⟩
  · show (exceptHandler env fn
      (guardFactReply env fn (inputResolution env fs0 body nm mu))).2 = false
    rw [exceptHandler_ok env fn _ hr2]
  · show factCheckCalls (finallyCleanup env
      (exceptHandler env fn
        (guardFactReply env fn (inputResolution env fs0 body nm mu))).1).1 =
      [geminiPrompt t]
    rw [(finallyCleanup_sends env _).2.2.1, exceptHandler_ok env fn _ hr2, hguard]
    simp only []
    rw [factCheckCalls_append, (inputResolution_clean env fs0 body nm mu).1,
      factCheckCalls_fc_send]
    rfl
  · show successfulSends (finallyCleanup env
      (exceptHandler env fn
        (guardFactReply env fn (inputResolution env fs0 body nm mu))).1).1 =
      [(fn, combinedReply t (gemini_fact_check g))]
    rw [(finallyCleanup_sends env _).1, exceptHandler_ok env fn _ hr2, hguard]
    simp only []
    rw [successfulSends_append, (inputResolution_clean env fs0 body nm mu).2.2,
      successfulSends_fc_send, hsend]
    rfl
  · show (("Transcript:\n" ++ t) ++ "\n\nFact-check:\n") ++ gemini_fact_check g =
      "Transcript:\n" ++ (t ++ ("\n\nFact-check:\n" ++ gemini_fact_check g))
    rw [strAppend_assoc ("Transcript:\n" ++ t) "\n\nFact-check:\n"
        (gemini_fact_check g),
      strAppend_assoc "Transcript:\n" t
        ("\n\nFact-check:\n" ++ gemini_fact_check g)]

/-- C7, witness: the spec's own worked example with a text body. -/
theorem c7_happyPath_witness :
    (process_incoming allOkEnv [] "w" "fact claim" "0" none).transcript =
        some "fact claim" ∧
    ("fact claim" : String) ≠ "" ∧
    allOkEnv.genOutcome = .ok ⟨some "Verdict: TRUE", "resp"⟩ ∧
    allOkEnv.sendOk (combinedReply "fact claim"
      (gemini_fact_check ⟨some "Verdict: TRUE", "resp"⟩)) = true ∧
    (factCheckCalls (process_incoming allOkEnv [] "w" "fact claim" "0" none).events =
        [geminiPrompt "fact claim"] ∧
      successfulSends (process_incoming allOkEnv [] "w" "fact claim" "0" none).events =
        [("w", combinedReply "fact claim"
          (gemini_fact_check ⟨some "Verdict: TRUE", "resp"⟩))]) :=
  ⟨by decide, by decide, rfl, rfl,
    (c7_happyPath allOkEnv [] "w" "fact claim" "0" none "fact claim"
        ⟨some "Verdict: TRUE", "resp"⟩ (by decide) (by decide) rfl
        rfl).2.2.1,
    (c7_happyPath allOkEnv [] "w" "fact claim" "0" none "fact claim"
        ⟨some "Verdict: TRUE", "resp"⟩ (by decide) (by decide) rfl
        rfl).2.2.2.2.1⟩

end FakeNews

namespace FakeNews

/-- C4: whenever a media attachment is declared (`num_media` parses to
a positive integer) and a non-empty media URL is present, the media
fetcher is invoked exactly once, with that URL; if the download
created a temporary file, its removal is attempted at the end of
processing whatever else happened, and when the removal succeeds the
file system is restored to its pre-run state; if no file was created
the file system is untouched; and the outcome of the removal (success
or raised-and-ignored error) never affects whether an exception
escapes nor which replies are delivered. -/
theorem c4_mediaCleanup (env : Env) (fs0 : FileSys) (fn body nm u : String)
    (n : Int)
    (hnm : pyTruthy nm = true) (hn : pyParseInt nm = some n) (hpos : 0 < n)
    (hu : u ≠ "") :
    downloadCalls (process_incoming env fs0 fn body nm (some u)).events = [u] ∧
    (∀ p, (process_incoming env fs0 fn body nm (some u)).createdPath = some p →
      Event.removeAttempt p env.removeOk ∈
        (process_incoming env fs0 fn body nm (some u)).events) ∧
    (∀ p, (process_incoming env fs0 fn body nm (some u)).createdPath = some p →
      env.removeOk = true →
      (process_incoming env fs0 fn body nm (some u)).finalFs = fs0) ∧
    ((process_incoming env fs0 fn body nm (some u)).createdPath = none →
      (process_incoming env fs0 fn body nm (some u)).finalFs = fs0) ∧
    (∀ b,
      (process_incoming { env with removeOk := b } fs0 fn body nm (some u)).escaped =
        (process_incoming env fs0 fn body nm (some u)).escaped ∧
      successfulSends
          (process_incoming { env with removeOk := b } fs0 fn body nm (some u)).events =
        successfulSends (process_incoming env fs0 fn body nm (some u)).events) := by
  have irrel : ∀ b,
      (process_incoming { env with removeOk := b } fs0 fn body nm (some u)).escaped =
        (process_incoming env fs0 fn body nm (some u)).escaped ∧
      successfulSends
          (process_incoming { env with removeOk := b } fs0 fn body nm (some u)).events =
        successfulSends (process_incoming env fs0 fn body nm (some u)).events :=
    fun b =>
      ⟨(process_incoming_removeOk_irrelevant env b fs0 fn body nm (some u)).1,
        (process_incoming_removeOk_irrelevant env b fs0 fn body nm (some u)).2.2.2⟩
  have main : downloadCalls (process_incoming env fs0 fn body nm (some u)).events = [u] ∧
      (∀ p, (process_incoming env fs0 fn body nm (some u)).createdPath = some p →
        Event.removeAttempt p env.removeOk ∈
          (process_incoming env fs0 fn body nm (some u)).events) ∧
      (∀ p, (process_incoming env fs0 fn body nm (some u)).createdPath = some p →
        env.removeOk = true →
        (process_incoming env fs0 fn body nm (some u)).finalFs = fs0) ∧
      ((process_incoming env fs0 fn body nm (some u)).createdPath = none →
        (process_incoming env fs0 fn body nm (some u)).finalFs = fs0) := by
    have hdlOnce : ∀ s1 : OrchState,
        inputResolution env fs0 body nm (some u) = s1 →
        downloadCalls s1.events = [u] →
        downloadCalls (process_incoming env fs0 fn body nm (some u)).events = [u] := by
      intro s1 hs1 hdc
      show downloadCalls (finallyCleanup env
        (exceptHandler env fn
          (guardFactReply env fn (inputResolution env fs0 body nm (some u)))).1).1 = [u]
      rw [(finallyCleanup_sends env _).2.2.2, exceptHandler_downloads,
        guardFactReply_downloads, hs1, hdc]
    have hcreated : (process_incoming env fs0 fn body nm (some u)).createdPath =
        (inputResolution env fs0 body nm (some u)).localPath := by
      show (guardFactReply env fn (inputResolution env fs0 body nm (some u))).localPath
        = (inputResolution env fs0 body nm (some u)).localPath
      exact guardFactReply_localPath env fn _
    have noneCase : ∀ s1 : OrchState,
        inputResolution env fs0 body nm (some u) = s1 →
        s1.localPath = none → s1.fs = fs0 →
        (∀ p, (process_incoming env fs0 fn body nm (some u)).createdPath = some p →
          Event.removeAttempt p env.removeOk ∈
            (process_incoming env fs0 fn body nm (some u)).events) ∧
        (∀ p, (process_incoming env fs0 fn body nm (some u)).createdPath = some p →
          env.removeOk = true →
          (process_incoming env fs0 fn body nm (some u)).finalFs = fs0) ∧
        ((process_incoming env fs0 fn body nm (some u)).createdPath = none →
          (process_incoming env fs0 fn body nm (some u)).finalFs = fs0) := by
      intro s1 hs1 hlp hfs
      have hnone : (process_incoming env fs0 fn body nm (some u)).createdPath = none := by
        rw [hcreated, hs1, hlp]
      refine ⟨?_, ?_, ?_⟩
      · intro p hp
        rw [hnone] at hp
        exact absurd hp (by simp)
      · intro p hp
        rw [hnone] at hp
        exact absurd hp (by simp)
      · intro _
        show (finallyCleanup env
          (exceptHandler env fn
            (guardFactReply env fn (inputResolution env fs0 body nm (some u)))).1).2 = fs0
        rw [hs1]
        exact cleanup_pipeline_none env fn s1 fs0 hlp hfs
    have someCase : ∀ (s1 : OrchState) (p : String),
        inputResolution env fs0 body nm (some u) = s1 →
        s1.localPath = some p → s1.fs = p :: fs0 → p ≠ "" →
        (∀ q, (process_incoming env fs0 fn body nm (some u)).createdPath = some q →
          Event.removeAttempt q env.removeOk ∈
            (process_incoming env fs0 fn body nm (some u)).events) ∧
        (∀ q, (process_incoming env fs0 fn body nm (some u)).createdPath = some q →
          env.removeOk = true →
          (process_incoming env fs0 fn body nm (some u)).finalFs = fs0) ∧
        ((process_incoming env fs0 fn body nm (some u)).createdPath = none →
          (process_incoming env fs0 fn body nm (some u)).finalFs = fs0) := by
      intro s1 p hs1 hlp hfs hp
      have hsome : (process_incoming env fs0 fn body nm (some u)).createdPath = some p := by
        rw [hcreated, hs1, hlp]
      have hclean := cleanup_pipeline_some env fn s1 fs0 p hlp hfs hp
      refine ⟨?_, ?_, ?_⟩
      · intro q hq
        rw [hsome] at hq
        have hqp : q = p := by
          injection hq.symm
        subst hqp
        show Event.removeAttempt q env.removeOk ∈
          (finallyCleanup env
            (exceptHandler env fn
              (guardFactReply env fn (inputResolution env fs0 body nm (some u)))).1).1
        rw [hs1]
        exact hclean.1
      · intro q hq hrm
        show (finallyCleanup env
          (exceptHandler env fn
            (guardFactReply env fn (inputResolution env fs0 body nm (some u)))).1).2 = fs0
        rw [hs1]
        exact hclean.2 hrm
      · intro hcontra
        rw [hsome] at hcontra
        exact absurd hcontra (by simp)
    cases hh : env.httpOutcome with
    | error e =>
        obtain ⟨⟩ := e
        have hir := inputResolution_media_dlErr env fs0 body nm u n hnm hn hpos hu hh
        refine ⟨hdlOnce _ hir rfl, noneCase _ hir rfl rfl⟩
    | ok resp =>
        by_cases hrs : raiseForStatusFails resp.statusCode = true
        · have hir := inputResolution_media_dlHttpErr env fs0 body nm u n resp
            hnm hn hpos hu hh hrs
          refine ⟨hdlOnce _ hir rfl, noneCase _ hir rfl rfl⟩
        · replace hrs : raiseForStatusFails resp.statusCode = false := by
            simpa using hrs
          have hpne : env.freshName ++ extFor resp.contentType ≠ "" :=
            strAppend_ne_empty _ _ (extFor_ne_empty _)
          cases hst : env.sttOutcome with
          | error e2 =>
              obtain ⟨⟩ := e2
              have hir := inputResolution_media_sttErr env fs0 body nm u n resp
                hnm hn hpos hu hh hrs hst
              refine ⟨hdlOnce _ hir rfl, someCase _ _ hir rfl rfl hpne⟩
          | ok sresp =>
              have hir := inputResolution_media_ok env fs0 body nm u n resp sresp
                hnm hn hpos hu hh hrs hst
              refine ⟨hdlOnce _ hir rfl, someCase _ _ hir rfl rfl hpne⟩
  exact ⟨main.1, main.2.1, main.2.2.1, main.2.2.2, irrel⟩

/-- C4, witness: a successful media run; the file is created and then
removed, restoring the file system. -/
theorem c4_mediaCleanup_witness :
    pyTruthy "1" = true ∧ pyParseInt "1" = some 1 ∧ (0 : Int) < 1 ∧
    ("http://u" : String) ≠ "" ∧
    (downloadCalls
        (process_incoming allOkEnv [] "w" "" "1" (some "http://u")).events =
      ["http://u"] ∧
      ((process_incoming allOkEnv [] "w" "" "1" (some "http://u")).createdPath = none →
        (process_incoming allOkEnv [] "w" "" "1" (some "http://u")).finalFs = [])) :=
  ⟨by decide, by decide, by decide, by decide,
    (c4_mediaCleanup allOkEnv [] "w" "" "1" "http://u" 1
        (by decide) (by decide) (by decide) (by decide)).1,
    (c4_mediaCleanup allOkEnv [] "w" "" "1" "http://u" 1
        (by decide) (by decide) (by decide) (by decide)).2.2.2.1⟩

end FakeNews


